import Mathlib

/-!
Verification of the multi-agent-ai repository's core decision logic:
the US-state extractor (`extract_state_from_prompt` in
src/server/fastapi_agent_server.py), the inline extraction of the ACP
health agent (src/server/acpmcp_server.py), the query classifier
(`AgentOrchestrator.classify_query` / `_fallback_classify` in
src/server/agent_orchestrator.py) and the orchestration dispatch
(`AgentOrchestrator.process_query`).

Modelling conventions:
* Python strings are Lean `String`s; `str.lower`/`str.upper`/`str.strip`
  are modelled character-wise for the ASCII fragment (`pyLower`,
  `pyUpper`, `pyStrip`), matching Python on ASCII input.
* Python's substring test `needle in hay` is `substrB`.
* The regular expressions used by the extractor are not a general regex
  engine in the source either: they are nine fixed patterns built from
  word boundaries, literals, `\s+`, an optional `s?` and a single
  `([A-Z]{2})` capture.  `matchAtoms`/`findAll` implement exactly this
  fragment with the greedy/backtracking semantics of `re.findall`.
* Confidence values (Python float literals 0.8, 0.7, 0.3, 1.0, 0.0) are
  carried symbolically as rationals; the code never computes with them,
  it only constructs and forwards them.
* Network calls (the classification LLM, the health agent HTTP call, the
  insurance agent websocket) are external collaborators; their behaviour
  enters as explicit outcome arguments (`Except` values).  A raised
  exception in a step of `process_query` is an `Except.error` step
  outcome, matching the source's try/except structure.
-/

/-- ASCII model of Python's whitespace class (for `\s`, `str.split`,
`str.strip`). -/
def pyIsSpace (c : Char) : Bool :=
  c = ' ' || c = '\t' || c = '\n' || c = '\r' || c.toNat = 11 || c.toNat = 12

/-- ASCII model of the regex word-character class `\w`. -/
def isWordChar (c : Char) : Bool :=
  c.isAlpha || c.isDigit || c = '_'

/-- The class `[A-Z]` used by the capture group `([A-Z]{2})`. -/
def isUpperAlpha (c : Char) : Bool :=
  'A' ≤ c && c ≤ 'Z'

/-- Python `str.lower()` (ASCII fragment). -/
def pyLower (s : String) : String :=
  ⟨s.data.map Char.toLower⟩

/-- Python `str.upper()` (ASCII fragment). -/
def pyUpper (s : String) : String :=
  ⟨s.data.map Char.toUpper⟩

/-- Python `str.strip()` (ASCII fragment). -/
def pyStrip (s : String) : String :=
  ⟨((s.data.dropWhile pyIsSpace).reverse.dropWhile pyIsSpace).reverse⟩

/-- Helper for `substrB`: does `n` occur as a contiguous run in the
second list? -/
def substrAux (n : List Char) : List Char → Bool
  | [] => n.isEmpty
  | c :: cs => n.isPrefixOf (c :: cs) || substrAux n cs

/-- Python's substring containment `needle in hay`. -/
def substrB (needle hay : String) : Bool :=
  substrAux needle.data hay.data

/-- Python `len(s.split())`: number of maximal non-whitespace runs. -/
def wordCount (s : String) : Nat :=
  (s.data.foldl
    (fun (acc : Nat × Bool) c =>
      if pyIsSpace c then (acc.1, false)
      else if acc.2 then acc else (acc.1 + 1, true))
    (0, false)).1

/-- Atoms of the regex fragment used by the extractor's patterns. -/
inductive RAtom where
  | lit (s : String)
  | opt (c : Char)
  | ws
  | cap
  | bnd
deriving DecidableEq

/-- Word-character test on an optional neighbouring character (absent
neighbours count as non-word, as at string ends). -/
def isWordO : Option Char → Bool
  | none => false
  | some c => isWordChar c

/-- Matcher for one pattern anchored at the current position.  `prev` is
the character just before the position (for `\b`).  On success returns
the text captured by the single `([A-Z]{2})` group, the last consumed
character and the remaining suffix.  The optional `s?` is greedy with
backtracking, matching Python `re`.  `\s+` consumes the maximal
whitespace run without backtracking: in every pattern below `\s+` is
followed by a literal letter or by the `[A-Z]{2}` capture, neither of
which can match a whitespace character, so a shorter run can never
succeed where the maximal one fails and this coincides with `re`'s
greedy-with-backtracking semantics on these patterns. -/
def matchAtoms : List RAtom → Option Char → List Char →
    Option (String × Option Char × List Char)
  | [], prev, cs => some ("", prev, cs)
  | .bnd :: rest, prev, cs =>
      if isWordO prev != isWordO cs.head? then matchAtoms rest prev cs else none
  | .lit s :: rest, prev, cs =>
      if s.data.isPrefixOf cs then
        matchAtoms rest (if s.data.isEmpty then prev else s.data.getLast?)
          (cs.drop s.data.length)
      else none
  | .opt c :: rest, prev, cs =>
      match cs with
      | [] => matchAtoms rest prev []
      | c' :: cs' =>
          if c' = c then
            matchAtoms rest (some c') cs' <|> matchAtoms rest prev (c' :: cs')
          else matchAtoms rest prev (c' :: cs')
  | .ws :: rest, prev, cs =>
      match cs with
      | [] => none
      | c :: cs' =>
          if pyIsSpace c then
            matchAtoms rest (some (((cs'.takeWhile pyIsSpace).getLast?).getD c))
              (cs'.dropWhile pyIsSpace)
          else none
  | .cap :: rest, prev, cs =>
      match cs with
      | a :: b :: cs' =>
          if isUpperAlpha a && isUpperAlpha b then
            match matchAtoms rest (some b) cs' with
            | some (capt, pr, rst) => some (⟨[a, b]⟩ ++ capt, pr, rst)
            | none => none
          else none
      | _ => none

/-- Fuelled scan implementing `re.findall`: try a match at each position
from left to right, continuing after the end of each match. -/
def findAllAux : Nat → List RAtom → Option Char → List Char → List String
  | 0, _, _, _ => []
  | fuel + 1, pat, prev, cs =>
      match matchAtoms pat prev cs with
      | some (capt, pr, rest) => capt :: findAllAux fuel pat pr rest
      | none =>
          match cs with
          | [] => []
          | c :: cs' => findAllAux fuel pat (some c) cs'

/-- `re.findall(pattern, s)` for the pattern fragment above.  Every
pattern below contains the capture (which consumes two characters), so
each scan step consumes at least one character and the fuel
`cs.length + 1` is sufficient. -/
def findAll (pat : List RAtom) (cs : List Char) : List String :=
  findAllAux (cs.length + 1) pat none cs

/-! ### The state extractor (src/server/fastapi_agent_server.py) -/

/-- The `state_names` dict of `extract_state_from_prompt`, in source
(insertion) order. -/
def state_names : List (String × String) := [
  ("california", "CA"), ("texas", "TX"), ("florida", "FL"), ("new york", "NY"),
  ("pennsylvania", "PA"), ("illinois", "IL"), ("ohio", "OH"), ("georgia", "GA"),
  ("north carolina", "NC"), ("michigan", "MI"), ("new jersey", "NJ"), ("virginia", "VA"),
  ("washington", "WA"), ("arizona", "AZ"), ("massachusetts", "MA"), ("tennessee", "TN"),
  ("indiana", "IN"), ("missouri", "MO"), ("maryland", "MD"), ("wisconsin", "WI"),
  ("colorado", "CO"), ("minnesota", "MN"), ("south carolina", "SC"), ("alabama", "AL"),
  ("louisiana", "LA"), ("kentucky", "KY"), ("oregon", "OR"), ("oklahoma", "OK"),
  ("connecticut", "CT"), ("utah", "UT"), ("iowa", "IA"), ("nevada", "NV"),
  ("arkansas", "AR"), ("mississippi", "MS"), ("kansas", "KS"), ("new mexico", "NM"),
  ("nebraska", "NE"), ("west virginia", "WV"), ("idaho", "ID"), ("hawaii", "HI"),
  ("new hampshire", "NH"), ("maine", "ME"), ("montana", "MT"), ("rhode island", "RI"),
  ("delaware", "DE"), ("south dakota", "SD"), ("north dakota", "ND"), ("alaska", "AK"),
  ("vermont", "VT"), ("wyoming", "WY")]

/-- `valid_state_codes = set(state_names.values())`; we keep the list and
use membership. -/
def validStateCodes : List String :=
  state_names.map Prod.snd

/-- The `excluded_words` denylist of two-letter common words. -/
def excluded_words : List String := [
  "me", "us", "am", "is", "it", "to", "in", "or", "at", "an", "as", "be", "by",
  "do", "go", "he", "if", "my", "no", "of", "on", "so", "up", "we"]

/-- Stable insertion of a pair into a list kept in non-increasing order
of name length: the new pair goes before the first strictly shorter
name, after all names of greater or equal length. -/
def insertByLen (x : String × String) : List (String × String) → List (String × String)
  | [] => [x]
  | y :: ys =>
      if y.1.length < x.1.length then x :: y :: ys else y :: insertByLen x ys

/-- `sorted(state_names.items(), key=lambda x: len(x[0]), reverse=True)`:
Python's stable sort by length descending. -/
def sortedStates : List (String × String) :=
  state_names.foldl (fun acc x => insertByLen x acc) []

/-- Step 1 of `extract_state_from_prompt`: first full state name (longest
first) contained in the lowercased prompt. -/
def fullNameStep (prompt : String) : Option String :=
  (sortedStates.find? (fun p => substrB p.1 (pyLower prompt))).map Prod.snd

/-- `r"\bin\s+([A-Z]{2})\b"` -/
def pat_in : List RAtom := [.bnd, .lit "in", .ws, .cap, .bnd]

/-- `r"\bfrom\s+([A-Z]{2})\b"` -/
def pat_from : List RAtom := [.bnd, .lit "from", .ws, .cap, .bnd]

/-- `r"\bstate\s+([A-Z]{2})\b"` -/
def pat_state : List RAtom := [.bnd, .lit "state", .ws, .cap, .bnd]

/-- `r"\bof\s+([A-Z]{2})\b"` -/
def pat_of : List RAtom := [.bnd, .lit "of", .ws, .cap, .bnd]

/-- `r"\blive\s+in\s+([A-Z]{2})\b"` -/
def pat_live_in : List RAtom := [.bnd, .lit "live", .ws, .lit "in", .ws, .cap, .bnd]

/-- `r"\bdoctors?\s+in\s+([A-Z]{2})\b"` -/
def pat_doctors_in : List RAtom := [.bnd, .lit "doctor", .opt 's', .ws, .lit "in", .ws, .cap, .bnd]

/-- `r"\b([A-Z]{2})\s+doctors?\b"` -/
def pat_code_doctors : List RAtom := [.bnd, .cap, .ws, .lit "doctor", .opt 's', .bnd]

/-- `r"\b([A-Z]{2})\s+area\b"` -/
def pat_code_area : List RAtom := [.bnd, .cap, .ws, .lit "area", .bnd]

/-- `r"\b([A-Z]{2})\s+state\b"` -/
def pat_code_state : List RAtom := [.bnd, .cap, .ws, .lit "state", .bnd]

/-- The ordered `state_code_patterns` list. -/
def state_code_patterns : List (List RAtom) :=
  [pat_in, pat_from, pat_state, pat_of, pat_live_in, pat_doctors_in,
   pat_code_doctors, pat_code_area, pat_code_state]

/-- `r"\b([A-Z]{2})\b"`, the last-resort standalone pattern. -/
def standalone_pattern : List RAtom := [.bnd, .cap, .bnd]

/-- The acceptance filter applied to every captured code in steps 2 and
3: `match in valid_state_codes and match.lower() not in excluded_words`. -/
def codeFilter (m : String) : Bool :=
  validStateCodes.contains m && !(excluded_words.contains (pyLower m))

/-- Step 2: the contextual patterns, in order, over the uppercased
prompt; the first captured code passing the filter wins. -/
def contextualStep (prompt : String) : Option String :=
  (state_code_patterns.flatMap (fun pat => findAll pat (pyUpper prompt).data)).find?
    codeFilter

/-- Step 3: standalone codes, accepted only when the original prompt has
at most five whitespace-separated words. -/
def standaloneStep (prompt : String) : Option String :=
  (findAll standalone_pattern (pyUpper prompt).data).find?
    (fun m => codeFilter m && decide (wordCount prompt ≤ 5))

/-- `extract_state_from_prompt` (src/server/fastapi_agent_server.py,
lines 132-248).  The guard models `if not prompt: return None`; the
`try/except` around steps 2-3 only catches regex-engine errors, which
the pure matcher cannot produce. -/
def extract_state_from_prompt (prompt : String) : Option String :=
  if prompt = "" then none
  else (fullNameStep prompt).or ((contextualStep prompt).or (standaloneStep prompt))

/-! ### The ACP health agent's inline extraction (src/server/acpmcp_server.py) -/

/-- The `state_names` dict inside `health_agent`, in source order; note
it mixes full state names with city aliases. -/
def acp_state_names : List (String × String) := [
  ("georgia", "GA"), ("california", "CA"), ("texas", "TX"),
  ("florida", "FL"), ("new york", "NY"), ("atlanta", "GA"),
  ("los angeles", "CA"), ("houston", "TX"), ("miami", "FL")]

/-- The state extraction inlined in `health_agent`
(src/server/acpmcp_server.py, lines 40-56): first
`re.search(r'\b([A-Z]{2})\b', prompt)` on the original prompt (no
validity or denylist check), else the first dictionary name contained in
the lowercased prompt, else the default `"GA"`. -/
def healthAgentExtract (prompt : String) : String :=
  match (findAll standalone_pattern prompt.data).head? with
  | some code => code
  | none =>
      match acp_state_names.find? (fun p => substrB p.1 (pyLower prompt)) with
      | some p => p.2
      | none => "GA"

/-! ### The query classifier (src/server/agent_orchestrator.py) -/

/-- `QueryType` enum. -/
inductive QueryType where
  | HEALTH_DOCTOR
  | INSURANCE
  | UNKNOWN
deriving DecidableEq

/-- `health_keywords` of `_fallback_classify`. -/
def health_keywords : List String := [
  "doctor", "physician", "medical", "healthcare", "hospital", "clinic",
  "specialist", "symptoms", "treatment", "diagnosis", "medication",
  "prescription", "find doctor", "medical help", "health issue",
  "cardiology", "pediatrics", "dermatology", "neurology", "orthopedic",
  "cardiologist", "pediatrician", "dermatologist", "neurologist"]

/-- `provider_seeking_phrases`. -/
def provider_seeking_phrases : List String := [
  "find me a doctor", "looking for a doctor", "need a doctor",
  "find me a specialist", "looking for a specialist", "need a specialist",
  "find doctor", "find specialist", "doctor that accepts",
  "specialist in my network", "doctor in my area", "find a doctor"]

/-- `strong_insurance_phrases`. -/
def strong_insurance_phrases : List String := [
  "covered by", "insurance cover", "insurance pay",
  "insurance benefits", "policy coverage",
  "does my plan cover", "will insurance pay", "insurance reimbursement",
  "my deductible", "insurance details", "my insurance coverage",
  "what are my insurance", "check my policy"]

/-- `insurance_keywords`. -/
def insurance_keywords : List String := [
  "insurance", "coverage", "covered", "policy", "claim", "benefits",
  "deductible", "copay", "premium", "plan", "benefit",
  "pays for", "reimburse", "out of pocket", "reimbursement"]

/-- The seeking-context words of the mixed-signal branch. -/
def seeking_words : List String := ["find", "looking for", "need a", "search for"]

/-- The coverage-context words of the mixed-signal branch. -/
def coverage_words : List String := ["covered", "cover", "pay", "benefits", "reimburse"]

/-- The tail of `_fallback_classify` after the mixed-signal branch fell
through: prioritize insurance, then health, then the 0.3 default. -/
def fallbackStandard (insurance_score health_score : Nat) : QueryType × ℚ × String :=
  if 0 < insurance_score then
    (.INSURANCE, 0.7, "Insurance keywords found: " ++ toString insurance_score)
  else if 0 < health_score then
    (.HEALTH_DOCTOR, 0.7, "Health keywords found: " ++ toString health_score)
  else
    (.HEALTH_DOCTOR, 0.3, "Default to health agent")

/-- `AgentOrchestrator._fallback_classify`
(src/server/agent_orchestrator.py, lines 184-253). -/
def fallback_classify (query : String) : QueryType × ℚ × String :=
  let ql := pyLower query
  let provider_seeking_count := provider_seeking_phrases.countP (fun p => substrB p ql)
  if 0 < provider_seeking_count then
    (.HEALTH_DOCTOR, 0.8, "Provider seeking phrases found: " ++ toString provider_seeking_count)
  else
    let strong_insurance_count := strong_insurance_phrases.countP (fun p => substrB p ql)
    if 0 < strong_insurance_count then
      (.INSURANCE, 0.8, "Strong insurance indicators found: " ++ toString strong_insurance_count)
    else
      let insurance_score := insurance_keywords.countP (fun k => substrB k ql)
      let health_score := health_keywords.countP (fun k => substrB k ql)
      if 0 < insurance_score ∧ 0 < health_score then
        if seeking_words.any (fun w => substrB w ql) then
          (.HEALTH_DOCTOR, 0.7, "Mixed query - provider seeking context: health=" ++
            toString health_score ++ ", insurance=" ++ toString insurance_score)
        else if coverage_words.any (fun w => substrB w ql) then
          (.INSURANCE, 0.7, "Mixed query - coverage context: insurance=" ++
            toString insurance_score ++ ", health=" ++ toString health_score)
        else fallbackStandard insurance_score health_score
      else fallbackStandard insurance_score health_score

/-- `AgentOrchestrator.classify_query`
(src/server/agent_orchestrator.py, lines 135-182).  The AutoGen chat is
an external collaborator; `outcome` is its behaviour on this request:
`.ok response` is the reply text (the source then takes
`.strip().upper()` of it), `.error e` is any raised exception.  The
`location` argument only enters the prompt sent to the collaborator, so
it does not influence the result beyond `outcome`. -/
def classify_query (query location : String) (outcome : Except String String) :
    QueryType × ℚ × String :=
  match outcome with
  | .error _ => fallback_classify query
  | .ok response =>
      let r := pyUpper (pyStrip response)
      if substrB "HEALTH_DOCTOR" r then
        (.HEALTH_DOCTOR, 0.8, "Query contains health/medical keywords")
      else if substrB "INSURANCE" r then
        (.INSURANCE, 0.8, "Query contains insurance-related keywords")
      else fallback_classify query

/-! ### The orchestrator (src/server/agent_orchestrator.py) -/

/-- The normalized collaborator result dictionary (the
`processing_time` entry added on success is ignored by the caller and
not modelled; it is wall-clock time). -/
structure AgentResult where
  success : Bool
  result : String
  agent_used : String
deriving DecidableEq

/-- An HTTP reply from the FastAPI health server: status code and the
optional `result` field of the JSON body. -/
inductive HTTPReply where
  | reply (statusCode : Nat) (resultField : Option String)
deriving DecidableEq

/-- `AgentOrchestrator.route_to_health_agent`
(src/server/agent_orchestrator.py, lines 255-297).  `o` is the
collaborator transport outcome: `.ok` an HTTP reply, `.error e` a raised
transport (or JSON-decoding) exception. -/
def route_to_health_agent (o : Except String HTTPReply) (location query : String) :
    AgentResult :=
  match o with
  | .ok (.reply statusCode resultField) =>
      if statusCode = 200 then
        { success := true,
          result := resultField.getD "No response received",
          agent_used := "health_doctor" }
      else
        { success := false,
          result := "Health agent error: " ++ toString statusCode,
          agent_used := "health_doctor" }
  | .error e =>
      { success := false,
        result := "Error contacting health agent: " ++ e,
        agent_used := "health_doctor" }

/-- `AgentOrchestrator.route_to_insurance_agent`
(src/server/agent_orchestrator.py, lines 299-354).  `o` is the websocket
outcome: `.ok content` the optional `content` field of the reply,
`.error e` a raised exception (the inner fallback `try` cannot itself
raise, so its second handler is unreachable). -/
def route_to_insurance_agent (o : Except String (Option String)) (query : String) :
    AgentResult :=
  match o with
  | .ok content =>
      { success := true,
        result := content.getD "No response received",
        agent_used := "insurance" }
  | .error e =>
      { success := false,
        result := "Insurance agent temporarily unavailable: " ++ e,
        agent_used := "insurance" }

/-- One observable collaborator interaction of `process_query`. -/
inductive Call where
  | classifier (query location : String)
  | healthAgent (location query : String)
  | insuranceAgent (query : String)
deriving DecidableEq

/-- The `QueryResponse` pydantic model of the orchestrator server. -/
structure QueryResponse where
  result : String
  success : Bool
  agent_used : String
  confidence : ℚ
  reasoning : String
deriving DecidableEq

/-- The response built by `process_query`'s top-level `except` handler. -/
def errorResponse (e : String) : QueryResponse :=
  { result := "Orchestration error: " ++ e,
    success := false,
    agent_used := "error",
    confidence := 0.0,
    reasoning := "Error in orchestration" }

/-- `AgentOrchestrator.process_query`
(src/server/agent_orchestrator.py, lines 356-410), in exception-passing
style.  `classifyStep` is the behaviour of `await self.classify_query`
on this request (`.error` = an unexpected exception escaping it);
`healthStep`/`insuranceStep` likewise for the two routing calls, whose
normal behaviour is `.ok (route_to_health_agent ...)` resp.
`.ok (route_to_insurance_agent ...)` since both wrappers catch their own
transport errors.  The second component records the collaborator calls
made, in order; the classifier is only consulted when no recognized
`force_agent` is given, mirroring
`if force_agent and force_agent in ['doctor', 'health']` /
`elif force_agent == 'insurance'`. -/
def process_query (location query : String) (force_agent : Option String)
    (classifyStep : Except String (QueryType × ℚ × String))
    (healthStep insuranceStep : Except String AgentResult) :
    QueryResponse × List Call :=
  let decision : Except String (QueryType × ℚ × String) × List Call :=
    if force_agent = some "doctor" ∨ force_agent = some "health" then
      (.ok (.HEALTH_DOCTOR, 1.0, "Forced to health agent"), [])
    else if force_agent = some "insurance" then
      (.ok (.INSURANCE, 1.0, "Forced to insurance agent"), [])
    else
      (classifyStep, [Call.classifier query location])
  match decision.1 with
  | .error e => (errorResponse e, decision.2)
  | .ok (query_type, confidence, reasoning) =>
      let routed : Except String AgentResult × List Call :=
        if query_type = .INSURANCE then
          (insuranceStep, [Call.insuranceAgent query])
        else
          (healthStep, [Call.healthAgent location query])
      match routed.1 with
      | .error e => (errorResponse e, decision.2 ++ routed.2)
      | .ok r =>
          ({ result := r.result,
             success := r.success,
             agent_used := r.agent_used,
             confidence := confidence,
             reasoning := reasoning }, decision.2 ++ routed.2)

/-! ### Helper lemmas -/

/-- Ordering invariant of `sortedStates`: earlier names are at least as
long as later ones. -/
def lenGE (a b : String × String) : Prop :=
  b.1.length ≤ a.1.length

theorem mem_insertByLen {x a : String × String} :
    ∀ {l}, a ∈ insertByLen x l ↔ a = x ∨ a ∈ l := by
  intro l
  induction l with
  | nil => simp [insertByLen]
  | cons y ys ih =>
      unfold insertByLen
      split
      · simp [List.mem_cons]
      · simp only [List.mem_cons, ih]
        tauto

theorem pairwise_insertByLen {x : String × String} :
    ∀ {l}, List.Pairwise lenGE l → List.Pairwise lenGE (insertByLen x l) := by
  intro l
  induction l with
  | nil => intro _; simp [insertByLen]
  | cons y ys ih =>
      intro hp
      rw [List.pairwise_cons] at hp
      unfold insertByLen
      split
      · next hlt =>
          refine List.pairwise_cons.mpr ⟨?_, List.pairwise_cons.mpr ⟨hp.1, hp.2⟩⟩
          intro b hb
          rcases List.mem_cons.mp hb with rfl | hb'
          · exact Nat.le_of_lt hlt
          · exact Nat.le_trans (hp.1 b hb') (Nat.le_of_lt hlt)
      · next hge =>
          refine List.pairwise_cons.mpr ⟨?_, ih hp.2⟩
          intro b hb
          rcases mem_insertByLen.mp hb with rfl | hb'
          · exact Nat.le_of_not_lt hge
          · exact hp.1 b hb'

theorem pairwise_sortFold :
    ∀ (l acc : List (String × String)), List.Pairwise lenGE acc →
      List.Pairwise lenGE (l.foldl (fun acc x => insertByLen x acc) acc) := by
  intro l
  induction l with
  | nil => intro acc h; exact h
  | cons x xs ih => intro acc h; exact ih _ (pairwise_insertByLen h)

theorem pairwise_sortedStates : List.Pairwise lenGE sortedStates :=
  pairwise_sortFold state_names [] List.Pairwise.nil

theorem mem_sortFold :
    ∀ (l acc : List (String × String)) (a : String × String),
      a ∈ l.foldl (fun acc x => insertByLen x acc) acc ↔ a ∈ l ∨ a ∈ acc := by
  intro l
  induction l with
  | nil => intro acc a; simp
  | cons x xs ih =>
      intro acc a
      rw [List.foldl_cons, ih, mem_insertByLen, List.mem_cons]
      tauto

theorem mem_sortedStates {a : String × String} :
    a ∈ sortedStates ↔ a ∈ state_names := by
  unfold sortedStates
  rw [mem_sortFold]
  simp

theorem find?_longest {l : List (String × String)} {p : String × String → Bool}
    {a : String × String} (hp : List.Pairwise lenGE l) (hf : l.find? p = some a) :
    ∀ b ∈ l, p b = true → b.1.length ≤ a.1.length := by
  induction l with
  | nil => cases hf
  | cons x xs ih =>
      rw [List.pairwise_cons] at hp
      by_cases hx : p x = true
      · rw [List.find?_cons_of_pos _ hx] at hf
        cases hf
        intro b hb hpb
        rcases List.mem_cons.mp hb with rfl | hb'
        · exact Nat.le_refl _
        · exact hp.1 b hb'
      · rw [List.find?_cons_of_neg _ hx] at hf
        intro b hb hpb
        rcases List.mem_cons.mp hb with rfl | hb'
        · exact absurd hpb hx
        · exact ih hp.2 hf b hb' hpb

theorem fullNameStep_eq_none {t : String}
    (h : ∀ p ∈ state_names, substrB p.1 (pyLower t) = false) :
    fullNameStep t = none := by
  unfold fullNameStep
  have : sortedStates.find? (fun p => substrB p.1 (pyLower t)) = none :=
    List.find?_eq_none.mpr (fun x hx => by
      simp [h x (mem_sortedStates.mp hx)])
  rw [this]
  rfl

theorem fullNameStep_some {t c : String} (h : fullNameStep t = some c) :
    ∃ p, p ∈ state_names ∧ p.2 = c ∧ substrB p.1 (pyLower t) = true := by
  unfold fullNameStep at h
  cases hf : sortedStates.find? (fun p => substrB p.1 (pyLower t)) with
  | none => rw [hf] at h; cases h
  | some p =>
      rw [hf] at h
      cases h
      have hps := List.find?_some hf
      exact ⟨p, mem_sortedStates.mp (List.mem_of_find?_eq_some hf), rfl, hps⟩

theorem contextualStep_some {t c : String} (h : contextualStep t = some c) :
    codeFilter c = true := by
  unfold contextualStep at h
  exact List.find?_some h

theorem standaloneStep_some {t c : String} (h : standaloneStep t = some c) :
    codeFilter c = true := by
  unfold standaloneStep at h
  have h1 := List.find?_some h
  simp only [Bool.and_eq_true] at h1
  exact h1.1

theorem extract_cases {t c : String} (h : extract_state_from_prompt t = some c) :
    fullNameStep t = some c ∨
      (fullNameStep t = none ∧
        (contextualStep t = some c ∨
          (contextualStep t = none ∧ standaloneStep t = some c))) := by
  unfold extract_state_from_prompt at h
  split at h
  · cases h
  · rcases Option.or_eq_some.mp h with h1 | ⟨h1, h2⟩
    · exact .inl h1
    · exact .inr ⟨h1, Option.or_eq_some.mp h2⟩

theorem extract_some_filter {t c : String} (h : extract_state_from_prompt t = some c)
    (hfn : fullNameStep t = none) : codeFilter c = true := by
  rcases extract_cases h with h1 | ⟨_, h2 | ⟨_, h3⟩⟩
  · rw [hfn] at h1; cases h1
  · exact contextualStep_some h2
  · exact standaloneStep_some h3

/-! ### Claim theorems -/

/-- C1, counterexample.  The claim asserts that every code returned by
`extract_state_from_prompt` has a lowercase form outside the excluded
common-word set, with the full-state-name step explicitly in scope.  But
the full-name step performs no denylist check: on input "maine" it
returns "ME" although "me" is in `excluded_words`. -/
theorem extract_state_excluded_code_counterexample :
    extract_state_from_prompt "maine" = some "ME" ∧
      excluded_words.contains (pyLower "ME") = true := by
  constructor
  · decide
  · decide

/-- C1, amended.  Every code returned by `extract_state_from_prompt` is
a member of the valid state-code set; the excluded-common-words check
additionally holds whenever the code was not produced by the full-name
step (i.e. when `fullNameStep` found nothing).  The full-name step
itself may return "IN", "ME" or "OR", whose lowercase forms are
excluded common words. -/
theorem extract_state_code_invariant_amended (t c : String)
    (h : extract_state_from_prompt t = some c) :
    validStateCodes.contains c = true ∧
      (fullNameStep t = none → excluded_words.contains (pyLower c) = false) := by
  rcases extract_cases h with h1 | ⟨hfn, _⟩
  · obtain ⟨p, hmem, hsnd, _⟩ := fullNameStep_some h1
    constructor
    · have : c ∈ validStateCodes := hsnd ▸ List.mem_map_of_mem Prod.snd hmem
      exact List.elem_iff.mpr this
    · intro hnone
      rw [hnone] at h1
      cases h1
  · have hcf := extract_some_filter h hfn
    simp only [codeFilter, Bool.and_eq_true, Bool.not_eq_true'] at hcf
    exact ⟨hcf.1, fun _ => hcf.2⟩

/-- C1, witness for the amended theorem, at the step-3 input "NV". -/
theorem extract_state_code_invariant_amended_witness :
    extract_state_from_prompt "NV" = some "NV" ∧
      validStateCodes.contains "NV" = true ∧
        (fullNameStep "NV" = none →
          excluded_words.contains (pyLower "NV") = false) :=
  ⟨by decide, extract_state_code_invariant_amended "NV" "NV" (by decide)⟩

/-- C7, counterexample.  "kansas" is a full state name and a substring
of the lowercased input "arkansas", yet the extractor returns "AR" (the
code of the longer embedded name "arkansas"), not "KS": the claim's
universal quantification over all embedded state names fails. -/
theorem extract_fullname_counterexample :
    ("kansas", "KS") ∈ state_names ∧
      substrB "kansas" (pyLower "arkansas") = true ∧
        extract_state_from_prompt "arkansas" = some "AR" ∧ "AR" ≠ "KS" :=
  ⟨by decide, by decide, by decide, by decide⟩

/-- C7, amended.  If some full state name is embedded in the lowercased
input, the extractor returns the code of an embedded state name — the
first match with candidate names tested longest-first, hence one whose
name is at least as long as any given embedded name — but not
necessarily the code of every embedded name. -/
theorem extract_fullname_amended (t name code : String)
    (hmem : (name, code) ∈ state_names)
    (hsub : substrB name (pyLower t) = true) :
    ∃ p : String × String, p ∈ state_names ∧ substrB p.1 (pyLower t) = true ∧
      name.length ≤ p.1.length ∧ extract_state_from_prompt t = some p.2 := by
  have hne : name ≠ "" := by
    intro hv
    have hall : ∀ p ∈ state_names, p.1 ≠ "" := by decide
    exact hall _ hmem (by simpa using hv)
  have ht : t ≠ "" := by
    intro hv
    subst hv
    rw [show pyLower "" = "" by decide] at hsub
    simp only [substrB, substrAux, List.isEmpty_iff] at hsub
    cases name with
    | mk d =>
        cases hsub
        exact hne (by decide)
  have hmemS : (name, code) ∈ sortedStates := mem_sortedStates.mpr hmem
  have hiss : (sortedStates.find? (fun p => substrB p.1 (pyLower t))).isSome :=
    List.find?_isSome.mpr ⟨(name, code), hmemS, hsub⟩
  obtain ⟨p, hfind⟩ := Option.isSome_iff_exists.mp hiss
  have hsubp := List.find?_some hfind
  have hmemp := mem_sortedStates.mp (List.mem_of_find?_eq_some hfind)
  have hlen := find?_longest pairwise_sortedStates hfind (name, code) hmemS hsub
  have hfs : fullNameStep t = some p.2 := by
    unfold fullNameStep
    rw [hfind]
    rfl
  have hext : extract_state_from_prompt t = some p.2 := by
    unfold extract_state_from_prompt
    rw [if_neg ht, hfs]
    rfl
  exact ⟨p, hmemp, hsubp, hlen, hext⟩

/-- C7, witness for the amended theorem at "I live in georgia". -/
theorem extract_fullname_amended_witness :
    ∃ p : String × String, p ∈ state_names ∧
      substrB p.1 (pyLower "I live in georgia") = true ∧
        ("georgia" : String).length ≤ p.1.length ∧
          extract_state_from_prompt "I live in georgia" = some p.2 :=
  extract_fullname_amended "I live in georgia" "georgia" "GA" (by decide) (by decide)

/-- C10.  If no full state name is embedded in the lowercased input,
the extractor never returns "IN", "ME" or "OR": both remaining steps
filter captured codes through the excluded-common-words denylist, which
contains "in", "me" and "or". -/
theorem extract_never_excluded_codes (t : String)
    (h : ∀ p ∈ state_names, substrB p.1 (pyLower t) = false) :
    extract_state_from_prompt t ≠ some "IN" ∧
      extract_state_from_prompt t ≠ some "ME" ∧
        extract_state_from_prompt t ≠ some "OR" := by
  have hfn := fullNameStep_eq_none h
  refine ⟨fun heq => ?_, fun heq => ?_, fun heq => ?_⟩
  · exact absurd (extract_some_filter heq hfn) (by decide)
  · exact absurd (extract_some_filter heq hfn) (by decide)
  · exact absurd (extract_some_filter heq hfn) (by decide)

/-- C10, witness at "I live in ME" (which contains the bare uppercase
tokens "IN" and "ME" but no full state name). -/
theorem extract_never_excluded_codes_witness :
    (∀ p ∈ state_names, substrB p.1 (pyLower "I live in ME") = false) ∧
      (extract_state_from_prompt "I live in ME" ≠ some "IN" ∧
        extract_state_from_prompt "I live in ME" ≠ some "ME" ∧
          extract_state_from_prompt "I live in ME" ≠ some "OR") :=
  ⟨by decide, extract_never_excluded_codes "I live in ME" (by decide)⟩

/-- C6, counterexample.  `extract_state_from_prompt`'s mapping contains
only full state names and no city aliases: on "atlanta" and
"los angeles" it returns nothing at all, not "GA"/"CA". -/
theorem extract_state_city_alias_counterexample :
    extract_state_from_prompt "atlanta" = none ∧
      extract_state_from_prompt "los angeles" = none :=
  ⟨by decide, by decide⟩

/-- C6, amended.  The city aliases live not in
`extract_state_from_prompt` (whose mapping contains no city names) but
in the inline mapping of the ACP `health_agent`: its dictionary maps
"atlanta" to "GA" and "los angeles" to "CA", and its extraction returns
"GA" for any input that contains "atlanta" (case-insensitively),
contains no bare uppercase two-letter token, and contains none of the
five state names listed before "atlanta" in that dictionary. -/
theorem city_alias_in_acp_health_agent_amended :
    state_names.all (fun p => p.1 != "atlanta" && p.1 != "los angeles") = true ∧
      ("atlanta", "GA") ∈ acp_state_names ∧
        ("los angeles", "CA") ∈ acp_state_names ∧
          healthAgentExtract "atlanta" = "GA" ∧
            healthAgentExtract "los angeles" = "CA" ∧
              ∀ t : String, findAll standalone_pattern t.data = [] →
                substrB "atlanta" (pyLower t) = true →
                substrB "georgia" (pyLower t) = false →
                substrB "california" (pyLower t) = false →
                substrB "texas" (pyLower t) = false →
                substrB "florida" (pyLower t) = false →
                substrB "new york" (pyLower t) = false →
                healthAgentExtract t = "GA" := by
  refine ⟨by decide, by decide, by decide, by decide, by decide, ?_⟩
  intro t h0 ha hg hc htx hf hn
  have hfind : acp_state_names.find? (fun p => substrB p.1 (pyLower t)) =
      some ("atlanta", "GA") := by
    unfold acp_state_names
    rw [List.find?_cons_of_neg _ (by simp [hg]),
        List.find?_cons_of_neg _ (by simp [hc]),
        List.find?_cons_of_neg _ (by simp [htx]),
        List.find?_cons_of_neg _ (by simp [hf]),
        List.find?_cons_of_neg _ (by simp [hn]),
        List.find?_cons_of_pos _ (by simp [ha])]
  unfold healthAgentExtract
  rw [h0, hfind]
  rfl

/-- C6, witness for the amended theorem's universal part at
"atlanta area doctors". -/
theorem city_alias_in_acp_health_agent_amended_witness :
    healthAgentExtract "atlanta area doctors" = "GA" :=
  city_alias_in_acp_health_agent_amended.2.2.2.2.2 "atlanta area doctors"
    (by decide) (by decide) (by decide) (by decide) (by decide) (by decide) (by decide)

/-- C2.  Whenever at least one provider-seeking phrase occurs in the
lowercased query, the fallback classifier returns HEALTH_DOCTOR with
confidence 0.8 and the provider-seeking reasoning carrying the count of
matching phrases — before any insurance tier is consulted, so insurance
phrases or keywords in the same query cannot divert the result. -/
theorem fallback_classify_provider_seeking_first (query : String)
    (h : ∃ p ∈ provider_seeking_phrases, substrB p (pyLower query) = true) :
    fallback_classify query =
      (QueryType.HEALTH_DOCTOR, 0.8, "Provider seeking phrases found: " ++
        toString (provider_seeking_phrases.countP
          (fun p => substrB p (pyLower query)))) := by
  have hc : 0 < provider_seeking_phrases.countP (fun p => substrB p (pyLower query)) :=
    List.countP_pos_iff.mpr (by simpa using h)
  unfold fallback_classify
  simp [hc]

/-- C2, witness: "find me a doctor that accepts my insurance" contains
two provider-seeking phrases and several insurance words, and is still
classified HEALTH_DOCTOR by the provider-seeking tier. -/
theorem fallback_classify_provider_seeking_first_witness :
    fallback_classify "find me a doctor that accepts my insurance" =
      (QueryType.HEALTH_DOCTOR, 0.8, "Provider seeking phrases found: 2") := by
  rw [fallback_classify_provider_seeking_first _ (by decide),
    show "Provider seeking phrases found: " ++
        toString (provider_seeking_phrases.countP
          (fun p => substrB p (pyLower "find me a doctor that accepts my insurance"))) =
      "Provider seeking phrases found: 2" by decide]

/-- C3.  If the classification collaborator raises, or replies with a
text whose stripped uppercased form contains neither "HEALTH_DOCTOR"
nor "INSURANCE", then `classify_query` returns exactly the rule-based
fallback result.  `classify_query` is a total function: the failure is
never propagated to the caller. -/
theorem classify_query_falls_back (query location : String)
    (outcome : Except String String)
    (h : (∃ e, outcome = .error e) ∨
      ∃ resp, outcome = .ok resp ∧
        substrB "HEALTH_DOCTOR" (pyUpper (pyStrip resp)) = false ∧
        substrB "INSURANCE" (pyUpper (pyStrip resp)) = false) :
    classify_query query location outcome = fallback_classify query := by
  rcases h with ⟨e, rfl⟩ | ⟨resp, rfl, h1, h2⟩
  · rfl
  · unfold classify_query
    simp [h1, h2]

/-- C3, witness: a raised collaborator exception. -/
theorem classify_query_falls_back_witness :
    classify_query "find a doctor" "Atlanta" (Except.error "timeout") =
      fallback_classify "find a doctor" :=
  classify_query_falls_back "find a doctor" "Atlanta" (Except.error "timeout")
    (Or.inl ⟨"timeout", rfl⟩)

/-- C9.  When no provider-seeking phrase and no strong insurance phrase
occurs, both keyword scores are positive, and none of the
seeking-context or coverage-context words occurs, the mixed-signal
branch falls through and the standard branch returns INSURANCE with
confidence 0.7 and the insurance-keywords reasoning — not a health
default. -/
theorem fallback_classify_mixed_fallthrough_insurance (query : String)
    (h1 : provider_seeking_phrases.countP (fun p => substrB p (pyLower query)) = 0)
    (h2 : strong_insurance_phrases.countP (fun p => substrB p (pyLower query)) = 0)
    (h3 : 0 < insurance_keywords.countP (fun k => substrB k (pyLower query)))
    (h4 : 0 < health_keywords.countP (fun k => substrB k (pyLower query)))
    (h5 : seeking_words.any (fun w => substrB w (pyLower query)) = false)
    (h6 : coverage_words.any (fun w => substrB w (pyLower query)) = false) :
    fallback_classify query =
      (QueryType.INSURANCE, 0.7, "Insurance keywords found: " ++
        toString (insurance_keywords.countP
          (fun k => substrB k (pyLower query)))) := by
  unfold fallback_classify fallbackStandard
  simp [h1, h2, h3, h4, h5, h6]

/-- C9, witness: "does insurance apply to a doctor visit" has insurance
score 1 and health score 1, no phrases and no context words. -/
theorem fallback_classify_mixed_fallthrough_insurance_witness :
    fallback_classify "does insurance apply to a doctor visit" =
      (QueryType.INSURANCE, 0.7, "Insurance keywords found: 1") := by
  rw [fallback_classify_mixed_fallthrough_insurance _ (by decide) (by decide)
    (by decide) (by decide) (by decide) (by decide),
    show "Insurance keywords found: " ++
        toString (insurance_keywords.countP
          (fun k => substrB k (pyLower "does insurance apply to a doctor visit"))) =
      "Insurance keywords found: 1" by decide]

/-- C4.  `process_query` is a total function (it never raises), and an
unexpected exception in any of its internal steps — the classification
call, or either routing call — is converted by the top-level handler
into the fixed error response: success=false, result "Orchestration
error: " followed by the error text, agent_used "error", confidence 0.0,
reasoning "Error in orchestration". -/
theorem process_query_top_level_catch (location query : String)
    (cO : Except String (QueryType × ℚ × String))
    (hO iO : Except String AgentResult) (e : String) :
    (cO = .error e →
      process_query location query none cO hO iO =
        (errorResponse e, [Call.classifier query location])) ∧
    (∀ conf reas, cO = .ok (.HEALTH_DOCTOR, conf, reas) → hO = .error e →
      process_query location query none cO hO iO =
        (errorResponse e,
          [Call.classifier query location, Call.healthAgent location query])) ∧
    (∀ conf reas, cO = .ok (.INSURANCE, conf, reas) → iO = .error e →
      process_query location query none cO hO iO =
        (errorResponse e,
          [Call.classifier query location, Call.insuranceAgent query])) := by
  refine ⟨?_, ?_, ?_⟩
  · rintro rfl
    simp [process_query]
  · rintro conf reas rfl rfl
    simp [process_query]
  · rintro conf reas rfl rfl
    simp [process_query]

/-- C4, witness: a classification step that raises "boom". -/
theorem process_query_top_level_catch_witness :
    process_query "NY" "find a doctor" none (Except.error "boom")
        (Except.ok ⟨true, "ok", "health_doctor"⟩)
        (Except.ok ⟨true, "ok", "insurance"⟩) =
      (errorResponse "boom", [Call.classifier "find a doctor" "NY"]) :=
  (process_query_top_level_catch "NY" "find a doctor" (Except.error "boom")
    (Except.ok ⟨true, "ok", "health_doctor"⟩)
    (Except.ok ⟨true, "ok", "insurance"⟩) "boom").1 rfl

/-- C5.  With `force_agent = "insurance"` and the insurance collaborator
wrapper behaving as in the source (which catches its own transport
errors), `process_query` never consults the classifier, performs exactly
one collaborator call — the insurance agent, receiving the query only,
not the location — and returns the wrapper's result with confidence 1.0
and reasoning "Forced to insurance agent", for every query including the
empty string. -/
theorem process_query_forced_insurance (location query : String)
    (cO : Except String (QueryType × ℚ × String))
    (hO : Except String AgentResult)
    (o : Except String (Option String)) :
    process_query location query (some "insurance") cO hO
        (Except.ok (route_to_insurance_agent o query)) =
      ({ result := (route_to_insurance_agent o query).result,
         success := (route_to_insurance_agent o query).success,
         agent_used := "insurance",
         confidence := 1.0,
         reasoning := "Forced to insurance agent" },
       [Call.insuranceAgent query]) := by
  cases o <;> simp [process_query, route_to_insurance_agent]

/-- C8.  When routing resolved to HEALTH_DOCTOR and the health-agent
collaborator call returns a non-200 HTTP status or raises a transport
error, `process_query` returns success=false with
agent_used="health_doctor" and a result string describing the error —
and, being total, does not raise. -/
theorem process_query_health_agent_failure (location query reas : String)
    (conf : ℚ) (iO : Except String AgentResult)
    (o : Except String HTTPReply) :
    (∀ statusCode resultField, statusCode ≠ 200 →
      o = .ok (.reply statusCode resultField) →
      process_query location query none (.ok (.HEALTH_DOCTOR, conf, reas))
          (.ok (route_to_health_agent o location query)) iO =
        ({ result := "Health agent error: " ++ toString statusCode,
           success := false, agent_used := "health_doctor",
           confidence := conf, reasoning := reas },
         [Call.classifier query location, Call.healthAgent location query])) ∧
    (∀ e, o = .error e →
      process_query location query none (.ok (.HEALTH_DOCTOR, conf, reas))
          (.ok (route_to_health_agent o location query)) iO =
        ({ result := "Error contacting health agent: " ++ e,
           success := false, agent_used := "health_doctor",
           confidence := conf, reasoning := reas },
         [Call.classifier query location, Call.healthAgent location query])) := by
  constructor
  · rintro statusCode resultField hne rfl
    simp [process_query, route_to_health_agent, hne]
  · rintro e rfl
    simp [process_query, route_to_health_agent]

/-- C8, witness: an HTTP 503 from the health agent. -/
theorem process_query_health_agent_failure_witness :
    process_query "GA" "find a doctor" none
        (Except.ok (QueryType.HEALTH_DOCTOR, 0.8, "r"))
        (Except.ok (route_to_health_agent
          (Except.ok (HTTPReply.reply 503 none)) "GA" "find a doctor"))
        (Except.ok ⟨true, "x", "insurance"⟩) =
      ({ result := "Health agent error: 503", success := false,
         agent_used := "health_doctor", confidence := 0.8, reasoning := "r" },
       [Call.classifier "find a doctor" "GA",
        Call.healthAgent "GA" "find a doctor"]) := by
  rw [(process_query_health_agent_failure "GA" "find a doctor" "r" 0.8
    (Except.ok ⟨true, "x", "insurance"⟩)
    (Except.ok (HTTPReply.reply 503 none))).1 503 none (by decide) rfl,
    show "Health agent error: " ++ toString (503 : Nat) = "Health agent error: 503"
      by decide]
